import Mathlib

set_option linter.unusedVariables false

/-!
Shallow embedding of the element-class resolution layer, the defaults
configuration and the save entry point of the pyilcd package
(src/pyilcd/core.py, src/pyilcd/config.py, src/pyilcd/common.py,
src/pyilcd/process_dataset.py, src/pyilcd/helpers.py), together with
theorems settling the frozen claims about it.
-/

namespace PyILCD

/-- One constructor per Python wrapper class that appears as a value in one of
the lookup tables of core.py, plus the partial "Group" classes of common.py.
Constructor names follow the (possibly aliased) names used in core.py's import
block; classes named identically in different modules carry their core.py
alias (e.g. `ProcessCompliance` for process_dataset.Compliance, while
`Compliance` is common.Compliance). -/
inductive WClass
  -- common.py
  | Category
  | Class
  | Classification
  | ClassificationInformation
  | CommissionerAndGoal
  | Compliance
  | ComplianceDeclarations
  | DataQualityIndicator
  | DataQualityIndicators
  | FlowCategorization
  | FlowCategoryInformation
  | GlobalReference
  | Method
  | Scope
  -- common.py partial "Group" classes (composed into per-kind classes)
  | ComplianceGroup
  | ValidationGroup1
  | ValidationGroup3
  | DataEntryByGroup1
  | DataEntryByGroup2
  | PublicationAndOwnershipGroup1
  | PublicationAndOwnershipGroup2
  | PublicationAndOwnershipGroup3
  -- contact_dataset.py
  | ContactAdministrativeInformation
  | ContactDataSet
  | ContactInformation
  | ContactDataEntryBy
  | ContactDataSetInformation
  | ContactPublicationAndOwnership
  -- flow_dataset.py
  | FlowAdministrativeInformation
  | FlowDataEntryBy
  | FlowDataSetInformation
  | FlowDataSet
  | FlowInformation
  | FlowProperties
  | FlowProperty
  | FlowGeography
  | LCIMethod
  | FlowModellingAndValidation
  | FlowName
  | FlowPublicationAndOwnership
  | FlowQuantitativeReference
  | FlowTechnology
  -- flow_property_dataset.py
  | FlowPropertyAdministrativeInformation
  | FlowPropertyDataEntryBy
  | FlowPropertyDataSetInformation
  | FPDSTAR
  | FlowPropertiesInformation
  | FlowPropertyDataSet
  | FlowPropertyModellingAndValidation
  | FlowPropertyPublicationAndOwnership
  | FlowPropertyQuantitativeReference
  -- process_dataset.py
  | ProcessAdministrativeInformation
  | Allocation
  | Allocations
  | ComplementingProcesses
  | Completeness
  | CompletenessElementaryFlows
  | ProcessCompliance
  | ProcessComplianceDeclarations
  | ProcessDataEntryBy
  | DataGenerator
  | ProcessDataSetInformation
  | PDSTAR
  | Exchange
  | Exchanges
  | ProcessGeography
  | LCIAResult
  | LCIAResults
  | LCIMethodAndAllocation
  | LocationOfOperationSupplyOrProduction
  | MathematicalRelations
  | ProcessModellingAndValidation
  | ProcessName
  | ProcessDataSet
  | ProcessInformation
  | ProcessPublicationAndOwnership
  | ProcessQuantitativeReference
  | ReferencesToDataSource
  | Review
  | SubLocationOfOperationSupplyOrProduction
  | ProcessTechnology
  | Time
  | Validation
  | VariableParameter
  -- source_dataset.py
  | SourceAdministrativeInformation
  | SourceDataEntryBy
  | SourceDataSetInformation
  | SourcePublicationAndOwnership
  | ReferenceToDigitalFile
  | SourceDataSet
  | SourceInformation
  -- unit_group_dataset.py
  | UnitGroupAdministrativeInformation
  | UnitGroupDataEntryBy
  | UnitGroupDataSetInformation
  | UnitGroupModellingAndValidation
  | UnitGroupPublicationAndOwnership
  | UnitGroupQuantitativeReference
  | Unit
  | UnitGroupDataSet
  | UnitGroupInformation
  | Units
  deriving DecidableEq, Repr

/-- Python exceptions relevant to the embedded code. `KeyError` (raised by a
failed dict subscript) is a subclass of `LookupError` in Python, so an
uncaught `keyError` is exactly what the spec calls "raises a LookupError". -/
inductive PyExn
  | keyError (key : String)
  deriving DecidableEq, Repr

deriving instance DecidableEq for Except

/-- First-match association-list lookup; Python dict indexing for the literal
dicts of core.py (whose keys are pairwise distinct, so first match is the
only match). -/
def lookupKey {α : Type _} : List (String × α) → String → Option α
  | [], _ => none
  | (k, v) :: rest, key => if k = key then some v else lookupKey rest key

/-- `d[key]` on a Python dict: the value, or an uncaught `KeyError`. -/
def dictGet (d : List (String × WClass)) (key : String) : Except PyExn WClass :=
  match lookupKey d key with
  | some v => Except.ok v
  | none => Except.error (PyExn.keyError key)

/-- core.py `COMMON_LOOK_UP`: the shared table, in source order. -/
def COMMON_LOOK_UP : List (String × WClass) := [
  ("allocation", WClass.Allocation),
  ("allocations", WClass.Allocations),
  ("category", WClass.Category),
  ("class", WClass.Class),
  ("classification", WClass.Classification),
  ("completeness", WClass.Completeness),
  ("completenessElementaryFlows", WClass.CompletenessElementaryFlows),
  ("complementingProcesses", WClass.ComplementingProcesses),
  ("compliance", WClass.Compliance),
  ("complianceDeclarations", WClass.ComplianceDeclarations),
  ("commissionerAndGoal", WClass.CommissionerAndGoal),
  ("contactDataSet", WClass.ContactDataSet),
  ("contactInformation", WClass.ContactInformation),
  ("dataGenerator", WClass.DataGenerator),
  ("dataQualityIndicator", WClass.DataQualityIndicator),
  ("dataQualityIndicators", WClass.DataQualityIndicators),
  ("elementaryFlowCategorization", WClass.FlowCategorization),
  ("flowDataSet", WClass.FlowDataSet),
  ("flowInformation", WClass.FlowInformation),
  ("flowProperties", WClass.FlowProperties),
  ("flowPropertiesInformation", WClass.FlowPropertiesInformation),
  ("flowProperty", WClass.FlowProperty),
  ("flowPropertyDataSet", WClass.FlowPropertyDataSet),
  ("method", WClass.Method),
  ("scope", WClass.Scope),
  ("exchange", WClass.Exchange),
  ("exchanges", WClass.Exchanges),
  ("LCIAResult", WClass.LCIAResult),
  ("LCIAResults", WClass.LCIAResults),
  ("LCIMethod", WClass.LCIMethod),
  ("LCIMethodAndAllocation", WClass.LCIMethodAndAllocation),
  ("locationOfOperationSupplyOrProduction",
    WClass.LocationOfOperationSupplyOrProduction),
  ("mathematicalRelations", WClass.MathematicalRelations),
  ("processDataSet", WClass.ProcessDataSet),
  ("processInformation", WClass.ProcessInformation),
  ("referenceToContact", WClass.GlobalReference),
  ("referenceToCommissioner", WClass.GlobalReference),
  ("referenceToComplementingProcess", WClass.GlobalReference),
  ("referenceToCompleteReviewReport", WClass.GlobalReference),
  ("referenceToComplianceSystem", WClass.GlobalReference),
  ("referenceToConvertedOriginalDataSetFrom", WClass.GlobalReference),
  ("referenceToDataHandlingPrinciples", WClass.GlobalReference),
  ("referenceToDataSetFormat", WClass.GlobalReference),
  ("referenceToDataSetUseApproval", WClass.GlobalReference),
  ("referenceToDataSource", WClass.GlobalReference),
  ("referenceToDigitalFile", WClass.ReferenceToDigitalFile),
  ("referenceToEntitiesWithExclusiveAccess", WClass.GlobalReference),
  ("referenceToExternalDocumentation", WClass.GlobalReference),
  ("referenceToFlowDataSet", WClass.GlobalReference),
  ("referenceToFlowPropertyDataSet", WClass.GlobalReference),
  ("referenceToIncludedProcesses", WClass.GlobalReference),
  ("referenceToLCAMethodDetails", WClass.GlobalReference),
  ("referenceToLCIAMethodDataSet", WClass.GlobalReference),
  ("referenceToLogo", WClass.GlobalReference),
  ("referenceToNameOfReviewerAndInstitution", WClass.GlobalReference),
  ("referenceToOwnershipOfDataSet", WClass.GlobalReference),
  ("referenceToPersonOrEntityEnteringTheData", WClass.GlobalReference),
  ("referenceToPersonOrEntityGeneratingTheDataSet", WClass.GlobalReference),
  ("referenceToPrecedingDataSetVersion", WClass.GlobalReference),
  ("referenceToReferenceUnitGroup", WClass.GlobalReference),
  ("referenceToRegistrationAuthority", WClass.GlobalReference),
  ("referenceToSupportedImpactAssessmentMethods", WClass.GlobalReference),
  ("referenceToTechnicalSpecification", WClass.GlobalReference),
  ("referenceToTechnologyFlowDiagrammOrPicture", WClass.GlobalReference),
  ("referenceToTechnologyPictogramme", WClass.GlobalReference),
  ("referenceToUnchangedRepublication", WClass.GlobalReference),
  ("referencesToDataSource", WClass.ReferencesToDataSource),
  ("review", WClass.Review),
  ("sourceDataSet", WClass.SourceDataSet),
  ("sourceInformation", WClass.SourceInformation),
  ("subLocationOfOperationSupplyOrProduction",
    WClass.SubLocationOfOperationSupplyOrProduction),
  ("time", WClass.Time),
  ("unit", WClass.Unit),
  ("units", WClass.Units),
  ("unitGroupDataSet", WClass.UnitGroupDataSet),
  ("unitGroupInformation", WClass.UnitGroupInformation),
  ("validation", WClass.Validation),
  ("variableParameter", WClass.VariableParameter)]

/-- core.py `_check_common_lookup`: try `COMMON_LOOK_UP[name]`, and on
`KeyError` return Python `None` (modelled as `Option.none`). The function
itself never raises, hence the `Except.ok` on both branches. -/
def check_common_lookup (name : String) : Except PyExn (Option WClass) :=
  match dictGet COMMON_LOOK_UP name with
  | Except.ok c => Except.ok (some c)
  | Except.error (PyExn.keyError _) => Except.ok none

/-- The private `lookupMap` dict literal of `ProcessDatasetLookup.lookup`. -/
def ProcessDatasetLookup.lookupMap : List (String × WClass) := [
  ("administrativeInformation", WClass.ProcessAdministrativeInformation),
  ("dataEntryBy", WClass.ProcessDataEntryBy),
  ("dataSetInformation", WClass.ProcessDataSetInformation),
  ("dataSourcesTreatmentAndRepresentativeness", WClass.PDSTAR),
  ("classificationInformation", WClass.ClassificationInformation),
  ("compliance", WClass.ProcessCompliance),
  ("complianceDeclarations", WClass.ProcessComplianceDeclarations),
  ("geography", WClass.ProcessGeography),
  ("modellingAndValidation", WClass.ProcessModellingAndValidation),
  ("name", WClass.ProcessName),
  ("publicationAndOwnership", WClass.ProcessPublicationAndOwnership),
  ("quantitativeReference", WClass.ProcessQuantitativeReference),
  ("technology", WClass.ProcessTechnology)]

/-- The private `lookupMap` dict literal of `FlowDatasetLookup.lookup`. -/
def FlowDatasetLookup.lookupMap : List (String × WClass) := [
  ("administrativeInformation", WClass.FlowAdministrativeInformation),
  ("classificationInformation", WClass.FlowCategoryInformation),
  ("dataEntryBy", WClass.FlowDataEntryBy),
  ("dataSetInformation", WClass.FlowDataSetInformation),
  ("geography", WClass.FlowGeography),
  ("modellingAndValidation", WClass.FlowModellingAndValidation),
  ("name", WClass.FlowName),
  ("publicationAndOwnership", WClass.FlowPublicationAndOwnership),
  ("quantitativeReference", WClass.FlowQuantitativeReference),
  ("technology", WClass.FlowTechnology)]

/-- The private `lookupMap` dict literal of `FlowPropertyDatasetLookup.lookup`. -/
def FlowPropertyDatasetLookup.lookupMap : List (String × WClass) := [
  ("administrativeInformation", WClass.FlowPropertyAdministrativeInformation),
  ("classificationInformation", WClass.ClassificationInformation),
  ("dataEntryBy", WClass.FlowPropertyDataEntryBy),
  ("dataSetInformation", WClass.FlowPropertyDataSetInformation),
  ("dataSourcesTreatmentAndRepresentativeness", WClass.FPDSTAR),
  ("modellingAndValidation", WClass.FlowPropertyModellingAndValidation),
  ("publicationAndOwnership", WClass.FlowPropertyPublicationAndOwnership),
  ("quantitativeReference", WClass.FlowPropertyQuantitativeReference)]

/-- The private `lookupMap` dict literal of `UnitGroupDatasetLookup.lookup`. -/
def UnitGroupDatasetLookup.lookupMap : List (String × WClass) := [
  ("administrativeInformation", WClass.UnitGroupAdministrativeInformation),
  ("classificationInformation", WClass.ClassificationInformation),
  ("dataEntryBy", WClass.UnitGroupDataEntryBy),
  ("dataSetInformation", WClass.UnitGroupDataSetInformation),
  ("modellingAndValidation", WClass.UnitGroupModellingAndValidation),
  ("publicationAndOwnership", WClass.UnitGroupPublicationAndOwnership),
  ("quantitativeReference", WClass.UnitGroupQuantitativeReference)]

/-- The private `lookupMap` dict literal of `ContactDatasetLookup.lookup`. -/
def ContactDatasetLookup.lookupMap : List (String × WClass) := [
  ("administrativeInformation", WClass.ContactAdministrativeInformation),
  ("dataEntryBy", WClass.ContactDataEntryBy),
  ("dataSetInformation", WClass.ContactDataSetInformation),
  ("classificationInformation", WClass.ClassificationInformation),
  ("publicationAndOwnership", WClass.ContactPublicationAndOwnership)]

/-- The private `lookupMap` dict literal of `SourceDatasetLookup.lookup`. -/
def SourceDatasetLookup.lookupMap : List (String × WClass) := [
  ("administrativeInformation", WClass.SourceAdministrativeInformation),
  ("dataEntryBy", WClass.SourceDataEntryBy),
  ("dataSetInformation", WClass.SourceDataSetInformation),
  ("classificationInformation", WClass.ClassificationInformation),
  ("publicationAndOwnership", WClass.SourcePublicationAndOwnership)]

/-- Shared body of the six `lookup` methods: try the private map, on
`KeyError` fall through to `_check_common_lookup`. A normal return of a class
is `ok (some c)`; a Python `None` return is `ok none`; an uncaught exception
would be `error`. -/
def lookupBody (privMap : List (String × WClass)) (name : String) :
    Except PyExn (Option WClass) :=
  match dictGet privMap name with
  | Except.ok c => Except.ok (some c)
  | Except.error (PyExn.keyError _) => check_common_lookup name

/-- `ProcessDatasetLookup.lookup(self, unused_node_type, unused_document,
unused_namespace, name)`: the three unused arguments are kept with arbitrary
types to mirror the Python signature. -/
def ProcessDatasetLookup.lookup {α β γ : Type _} (unused_node_type : α)
    (unused_document : β) (unused_namespace : γ) (name : String) :
    Except PyExn (Option WClass) :=
  lookupBody ProcessDatasetLookup.lookupMap name

/-- `FlowDatasetLookup.lookup`. -/
def FlowDatasetLookup.lookup {α β γ : Type _} (unused_node_type : α)
    (unused_document : β) (unused_namespace : γ) (name : String) :
    Except PyExn (Option WClass) :=
  lookupBody FlowDatasetLookup.lookupMap name

/-- `FlowPropertyDatasetLookup.lookup`. -/
def FlowPropertyDatasetLookup.lookup {α β γ : Type _} (unused_node_type : α)
    (unused_document : β) (unused_namespace : γ) (name : String) :
    Except PyExn (Option WClass) :=
  lookupBody FlowPropertyDatasetLookup.lookupMap name

/-- `UnitGroupDatasetLookup.lookup`. -/
def UnitGroupDatasetLookup.lookup {α β γ : Type _} (unused_node_type : α)
    (unused_document : β) (unused_namespace : γ) (name : String) :
    Except PyExn (Option WClass) :=
  lookupBody UnitGroupDatasetLookup.lookupMap name

/-- `ContactDatasetLookup.lookup`. -/
def ContactDatasetLookup.lookup {α β γ : Type _} (unused_node_type : α)
    (unused_document : β) (unused_namespace : γ) (name : String) :
    Except PyExn (Option WClass) :=
  lookupBody ContactDatasetLookup.lookupMap name

/-- `SourceDatasetLookup.lookup`. -/
def SourceDatasetLookup.lookup {α β γ : Type _} (unused_node_type : α)
    (unused_document : β) (unused_namespace : γ) (name : String) :
    Except PyExn (Option WClass) :=
  lookupBody SourceDatasetLookup.lookupMap name

/-- The six dataset kinds. -/
inductive Kind
  | process
  | flow
  | flowProperty
  | unitGroup
  | contact
  | source
  deriving DecidableEq, Repr, Fintype

/-- The private table of each kind's resolver. -/
def privateTable : Kind → List (String × WClass)
  | Kind.process => ProcessDatasetLookup.lookupMap
  | Kind.flow => FlowDatasetLookup.lookupMap
  | Kind.flowProperty => FlowPropertyDatasetLookup.lookupMap
  | Kind.unitGroup => UnitGroupDatasetLookup.lookupMap
  | Kind.contact => ContactDatasetLookup.lookupMap
  | Kind.source => SourceDatasetLookup.lookupMap

/-- Calling kind `k`'s resolver method with the given (ignored) extra
arguments. -/
def dispatchLookup {α β γ : Type _} (k : Kind) (nodeType : α) (document : β)
    (ns : γ) (name : String) : Except PyExn (Option WClass) :=
  match k with
  | Kind.process => ProcessDatasetLookup.lookup nodeType document ns name
  | Kind.flow => FlowDatasetLookup.lookup nodeType document ns name
  | Kind.flowProperty => FlowPropertyDatasetLookup.lookup nodeType document ns name
  | Kind.unitGroup => UnitGroupDatasetLookup.lookup nodeType document ns name
  | Kind.contact => ContactDatasetLookup.lookup nodeType document ns name
  | Kind.source => SourceDatasetLookup.lookup nodeType document ns name

/-- `resolve k name`: kind `k`'s resolver applied to tag `name` (the extra
lxml arguments are irrelevant, see `C6_lookup_pure`). -/
def resolve (k : Kind) (name : String) : Except PyExn (Option WClass) :=
  dispatchLookup k () () () name

/-- One section of a config file or of a defaults table:
attribute name mapped to value, in order. -/
abbrev AttrMap := List (String × String)

/-- The mutable class-level state of config.Defaults. `static_defaults`
(lowercase) is the attribute that `config_defaults` creates by assignment;
it does not exist before the first call, hence the `Option`. `extraAttrs`
holds class attributes created by `setattr` under keys that name none of the
statically declared string attributes. The `DYNAMIC_DEFAULTS` values are
Python callables; as the table starts and stays empty, a callable is
represented only by a name. -/
structure DefaultsState where
  SCHEMA_DIR : String
  SCHEMA_PROCESS_DATASET : String
  SCHEMA_FLOW_DATASET : String
  SCHEMA_FLOW_PROPERTY_DATASET : String
  SCHEMA_UNIT_GROUP_DATASET : String
  SCHEMA_CONTACT_DATASET : String
  SCHEMA_SOURCE_DATASET : String
  STATIC_DEFAULTS : List (String × AttrMap)
  DYNAMIC_DEFAULTS : List (String × AttrMap)
  static_defaults : Option (List (String × AttrMap))
  extraAttrs : List (String × String)
  deriving DecidableEq, Repr

/-- `os.path.join` for the relative segments used in config.py. -/
def pathJoin (a b : String) : String := a ++ "/" ++ b

/-- The class body of config.Defaults: the state at import time, before any
`config_defaults` call. `pkgDir` is the directory of config.py
(`Path(__file__).parent.resolve()`), an environment-dependent input. -/
def Defaults.initial (pkgDir : String) : DefaultsState :=
  let schemaDir := pathJoin pkgDir "schemas"
  { SCHEMA_DIR := schemaDir
    SCHEMA_PROCESS_DATASET := pathJoin schemaDir "ILCD_ProcessDataSet.xsd"
    SCHEMA_FLOW_DATASET := pathJoin schemaDir "ILCD_FlowDataSet.xsd"
    SCHEMA_FLOW_PROPERTY_DATASET := pathJoin schemaDir "ILCD_FlowPropertyDataSet.xsd"
    SCHEMA_UNIT_GROUP_DATASET := pathJoin schemaDir "ILCD_UnitGroupDataSet.xsd"
    SCHEMA_CONTACT_DATASET := pathJoin schemaDir "ILCD_ContactDataSet.xsd"
    SCHEMA_SOURCE_DATASET := pathJoin schemaDir "ILCD_SourceDataSet.xsd"
    STATIC_DEFAULTS := [
      ("Classification", [("name", "ILCD")]),
      ("FlowCategorization", [("name", "ILCD")]),
      ("ProcessDataset", [("metaDataOnly", "false")])]
    DYNAMIC_DEFAULTS := []
    static_defaults := none
    extraAttrs := [] }

/-- `setattr(cls, key, value)` for a string `value` from the `[parameters]`
section: a key naming one of the declared string class attributes replaces
it; any other key creates or replaces a plain class attribute, modelled in
`extraAttrs`. (Overwriting the dict-valued table attributes through this
path would change their Python type and is outside the model.) -/
def Defaults.setattr (st : DefaultsState) (kv : String × String) : DefaultsState :=
  if kv.1 = "SCHEMA_DIR" then { st with SCHEMA_DIR := kv.2 }
  else if kv.1 = "SCHEMA_PROCESS_DATASET" then
    { st with SCHEMA_PROCESS_DATASET := kv.2 }
  else if kv.1 = "SCHEMA_FLOW_DATASET" then
    { st with SCHEMA_FLOW_DATASET := kv.2 }
  else if kv.1 = "SCHEMA_FLOW_PROPERTY_DATASET" then
    { st with SCHEMA_FLOW_PROPERTY_DATASET := kv.2 }
  else if kv.1 = "SCHEMA_UNIT_GROUP_DATASET" then
    { st with SCHEMA_UNIT_GROUP_DATASET := kv.2 }
  else if kv.1 = "SCHEMA_CONTACT_DATASET" then
    { st with SCHEMA_CONTACT_DATASET := kv.2 }
  else if kv.1 = "SCHEMA_SOURCE_DATASET" then
    { st with SCHEMA_SOURCE_DATASET := kv.2 }
  else { st with extraAttrs := (kv.1, kv.2) :: st.extraAttrs }

/-- A parsed config file: the `[parameters]` section, if present, and the
remaining sections (`config.items()` minus "parameters") in file order. -/
structure ConfigFile where
  parameters : Option (List (String × String))
  sections : List (String × AttrMap)
  deriving DecidableEq, Repr

/-- config.Defaults.config_defaults: every key of `[parameters]` is
`setattr` onto the class; then the dict of all non-"parameters" sections is
assigned to the new lowercase attribute `static_defaults`. No assignment to
`STATIC_DEFAULTS` or `DYNAMIC_DEFAULTS` occurs. -/
def Defaults.config_defaults (st : DefaultsState) (config : ConfigFile) :
    DefaultsState :=
  let st1 := match config.parameters with
    | some ps => ps.foldl Defaults.setattr st
    | none => st
  { st1 with static_defaults := some config.sections }

/-- The argument record that core.save_ilcd_file hands to the external
lxmlh.save_file. -/
structure SaveFileArgs (ρ : Type _) where
  root : ρ
  path : String
  static_defaults : Option (List (String × AttrMap))
  dynamic_defaults : Option (List (String × AttrMap))
  deriving DecidableEq, Repr

/-- core.save_ilcd_file, as the call it makes to lxmlh.save_file; the
Defaults class state is the explicit argument `st`. -/
def save_ilcd_file {ρ : Type _} (root : ρ) (path : String)
    (fill_defaults : Bool) (st : DefaultsState) : SaveFileArgs ρ :=
  if !fill_defaults then
    { root := root, path := path,
      static_defaults := none, dynamic_defaults := none }
  else
    { root := root, path := path,
      static_defaults := some st.STATIC_DEFAULTS,
      dynamic_defaults := some st.DYNAMIC_DEFAULTS }

/-- The argument record a validate_file_* wrapper hands to lxmlh.validate_file. -/
structure ValidateFileCall (φ : Type _) where
  file : φ
  schema_path : String
  deriving DecidableEq, Repr

/-- core.validate_file_process_dataset: delegates to
validate_file(file, Defaults.SCHEMA_PROCESS_DATASET), reading the class
attribute at call time. -/
def validate_file_process_dataset {φ : Type _} (file : φ) (st : DefaultsState) :
    ValidateFileCall φ :=
  { file := file, schema_path := st.SCHEMA_PROCESS_DATASET }

/-- The argument record a parse_file_* wrapper hands to lxmlh.parse_file;
the lookup object is identified by its dataset kind. -/
structure ParseFileCall (φ : Type _) where
  file : φ
  schema_path : String
  lookup : Kind
  deriving DecidableEq, Repr

/-- core.parse_file_process_dataset: delegates to
parse_file(file, Defaults.SCHEMA_PROCESS_DATASET, ProcessDatasetLookup()),
reading the class attribute at call time. -/
def parse_file_process_dataset {φ : Type _} (file : φ) (st : DefaultsState) :
    ParseFileCall φ :=
  { file := file, schema_path := st.SCHEMA_PROCESS_DATASET,
    lookup := Kind.process }

/-- Reading entry (element-type name, attribute name) of a static defaults
table. -/
def staticLookup (tbl : List (String × AttrMap)) (typeName attrName : String) :
    Option String :=
  match lookupKey tbl typeName with
  | some sec => lookupKey sec attrName
  | none => none

/-- Which lxmlh factory a helpers.py wrapper calls. -/
inductive AccessorKind
  | attribute
  | attributeList
  | elementText
  deriving DecidableEq, Repr

/-- A factory-made typed accessor: the Python property name it is assigned
to, the tag/attribute name passed to the factory, which factory made it,
and the schema identity — which Defaults.SCHEMA_*_DATASET constant the
helpers.py wrapper passes to the factory. -/
structure Accessor where
  pyName : String
  tag : String
  kind : AccessorKind
  schema : Kind
  deriving DecidableEq, Repr

/-- helpers.create_attribute_process_dataset: calls lxmlh.create_attribute
with Defaults.SCHEMA_PROCESS_DATASET. (helpers.py defines one analogous
wrapper per dataset kind and factory; only the process-schema wrappers are
used by common.py and process_dataset.Compliance.) -/
def create_attribute_process_dataset (pyName tag : String) : Accessor :=
  { pyName := pyName, tag := tag, kind := AccessorKind.attribute,
    schema := Kind.process }

/-- helpers.create_attribute_list_process_dataset: calls
lxmlh.create_attribute_list with Defaults.SCHEMA_PROCESS_DATASET. -/
def create_attribute_list_process_dataset (pyName tag : String) : Accessor :=
  { pyName := pyName, tag := tag, kind := AccessorKind.attributeList,
    schema := Kind.process }

/-- helpers.create_element_text_process_dataset: calls
lxmlh.create_element_text with Defaults.SCHEMA_PROCESS_DATASET. -/
def create_element_text_process_dataset (pyName tag : String) : Accessor :=
  { pyName := pyName, tag := tag, kind := AccessorKind.elementText,
    schema := Kind.process }

/-- Every factory-made typed accessor declared in common.py, as
(class name, accessor) in source order. Properties built with get_element /
get_element_list take no schema argument and are not factory accessors. -/
def commonAccessors : List (String × Accessor) := [
  ("GlobalReference",
    create_attribute_list_process_dataset "subReference" "subReference"),
  ("GlobalReference",
    create_attribute_list_process_dataset "shortDescription" "shortDescription"),
  ("GlobalReference", create_attribute_process_dataset "type" "type"),
  ("GlobalReference", create_attribute_process_dataset "refObjectId" "refObjectId"),
  ("GlobalReference", create_attribute_process_dataset "version" "version"),
  ("GlobalReference", create_attribute_process_dataset "uri" "uri"),
  ("Classification", create_attribute_process_dataset "name" "name"),
  ("Classification", create_attribute_process_dataset "classes" "classes"),
  ("Class", create_attribute_process_dataset "level" "level"),
  ("Class", create_attribute_process_dataset "classId" "classId"),
  ("Scope", create_attribute_process_dataset "name" "name"),
  ("Method", create_attribute_process_dataset "name" "name"),
  ("DataQualityIndicator", create_attribute_process_dataset "name" "name"),
  ("DataQualityIndicator", create_attribute_process_dataset "value" "value"),
  ("ValidationGroup1",
    create_attribute_list_process_dataset "reviewDetails" "common:reviewDetails"),
  ("ValidationGroup3",
    create_attribute_list_process_dataset "otherReviewDetails"
      "common:otherReviewDetails"),
  ("ComplianceGroup",
    create_element_text_process_dataset "approvalOfOverallCompliance"
      "approvalOfOverallCompliance"),
  ("CommissionerAndGoal",
    create_attribute_list_process_dataset "project" "common:project"),
  ("CommissionerAndGoal",
    create_attribute_list_process_dataset "intendedApplications"
      "common:intendedApplications"),
  ("DataEntryByGroup1",
    create_element_text_process_dataset "timeStamp" "common:timeStamp"),
  ("PublicationAndOwnershipGroup1",
    create_element_text_process_dataset "dataSetVersion" "common:dataSetVersion"),
  ("PublicationAndOwnershipGroup1",
    create_element_text_process_dataset "permanentDataSetURI"
      "common:permanentDataSetURI"),
  ("PublicationAndOwnershipGroup2",
    create_element_text_process_dataset "workflowAndPublicationStatus"
      "common:workflowAndPublicationStatus"),
  ("PublicationAndOwnershipGroup3",
    create_element_text_process_dataset "copyright" "common:copyright"),
  ("PublicationAndOwnershipGroup3",
    create_element_text_process_dataset "licenseType" "common:licenseType"),
  ("PublicationAndOwnershipGroup3",
    create_attribute_list_process_dataset "accessRestrictions"
      "common:accessRestrictions"),
  ("FlowCategorization", create_attribute_process_dataset "name" "name"),
  ("FlowCategorization", create_attribute_process_dataset "categories" "categories"),
  ("Category", create_attribute_process_dataset "level" "level"),
  ("Category", create_attribute_process_dataset "catId" "catId")]

/-- Direct base classes of process_dataset.Compliance
(`class Compliance(ComplianceGroup)`). -/
def ProcessCompliance.bases : List WClass := [WClass.ComplianceGroup]

/-- Direct base classes of common.Compliance
(`class Compliance(ComplianceGroup)`). -/
def Compliance.bases : List WClass := [WClass.ComplianceGroup]

/-- The accessors declared directly on process_dataset.Compliance, beyond
those inherited from ComplianceGroup, in source order. -/
def ProcessCompliance.ownAccessors : List Accessor := [
  create_element_text_process_dataset "nomenclatureCompliance"
    "common:nomenclatureCompliance",
  create_element_text_process_dataset "methodologicalCompliance"
    "common:methodologicalCompliance",
  create_element_text_process_dataset "reviewCompliance"
    "common:reviewCompliance",
  create_element_text_process_dataset "documentationCompliance"
    "common:documentationCompliance",
  create_element_text_process_dataset "qualityCompliance"
    "common:qualityCompliance"]

/-- common.Compliance adds no accessor of its own to ComplianceGroup. -/
def Compliance.ownAccessors : List Accessor := []

/-- The partial "Group" classes of common.py. -/
def groupClasses : List WClass := [
  WClass.ComplianceGroup, WClass.ValidationGroup1, WClass.ValidationGroup3,
  WClass.DataEntryByGroup1, WClass.DataEntryByGroup2,
  WClass.PublicationAndOwnershipGroup1, WClass.PublicationAndOwnershipGroup2,
  WClass.PublicationAndOwnershipGroup3]

/-! ### Helper lemmas -/

theorem resolve_eq_lookupBody (k : Kind) (name : String) :
    resolve k name = lookupBody (privateTable k) name := by
  cases k <;> rfl

theorem lookupKey_mem {α : Type _} {key : String} {v : α} :
    ∀ {d : List (String × α)}, lookupKey d key = some v → (key, v) ∈ d := by
  intro d
  induction d with
  | nil => intro h; simp [lookupKey] at h
  | cons hd tl ih =>
    intro h
    obtain ⟨k', v'⟩ := hd
    rw [lookupKey] at h
    by_cases hk : k' = key
    · rw [if_pos hk] at h
      injection h with hv
      subst hk; subst hv
      exact List.mem_cons_self _ _
    · rw [if_neg hk] at h
      exact List.mem_cons_of_mem _ (ih h)

theorem lookupKey_eq_none {α : Type _} {key : String} :
    ∀ {d : List (String × α)}, key ∉ d.map Prod.fst → lookupKey d key = none := by
  intro d
  induction d with
  | nil => intro _; rfl
  | cons hd tl ih =>
    intro h
    obtain ⟨k', v'⟩ := hd
    rw [List.map_cons, List.mem_cons] at h
    push_neg at h
    rw [lookupKey, if_neg (fun hk => h.1 hk.symm)]
    exact ih h.2

theorem lookupKey_of_mem {α : Type _} {key : String} {v : α} :
    ∀ {d : List (String × α)}, (d.map Prod.fst).Nodup → (key, v) ∈ d →
    lookupKey d key = some v := by
  intro d
  induction d with
  | nil => intro _ hmem; simp at hmem
  | cons hd tl ih =>
    intro hnd hmem
    obtain ⟨k', v'⟩ := hd
    rw [List.map_cons, List.nodup_cons] at hnd
    rw [List.mem_cons] at hmem
    rcases hmem with heq | hmem
    · injection heq with h1 h2
      subst h1; subst h2
      rw [lookupKey, if_pos rfl]
    · have hk : k' ≠ key := by
        intro hk
        subst hk
        exact hnd.1 (List.mem_map.mpr ⟨(k', v), hmem, rfl⟩)
      rw [lookupKey, if_neg hk]
      exact ih hnd.2 hmem

theorem lookupBody_of_priv_some {privMap : List (String × WClass)}
    {name : String} {c : WClass} (h : lookupKey privMap name = some c) :
    lookupBody privMap name = Except.ok (some c) := by
  simp only [lookupBody, dictGet, h]

theorem lookupBody_of_priv_none {privMap : List (String × WClass)}
    {name : String} (h : lookupKey privMap name = none) :
    lookupBody privMap name = check_common_lookup name := by
  simp only [lookupBody, dictGet, h]

theorem check_common_of_some {name : String} {c : WClass}
    (h : lookupKey COMMON_LOOK_UP name = some c) :
    check_common_lookup name = Except.ok (some c) := by
  simp only [check_common_lookup, dictGet, h]

theorem check_common_of_none {name : String}
    (h : lookupKey COMMON_LOOK_UP name = none) :
    check_common_lookup name = Except.ok none := by
  simp only [check_common_lookup, dictGet, h]

theorem commonKeysNodup : (COMMON_LOOK_UP.map Prod.fst).Nodup := by decide

/-- A class returned by a resolver is a value of the private table or of the
shared table. -/
theorem resolve_ok_mem {k : Kind} {name : String} {c : WClass}
    (h : resolve k name = Except.ok (some c)) :
    (name, c) ∈ privateTable k ∨ (name, c) ∈ COMMON_LOOK_UP := by
  rw [resolve_eq_lookupBody] at h
  cases hp : lookupKey (privateTable k) name with
  | some c' =>
    rw [lookupBody_of_priv_some hp] at h
    injection h with h
    injection h with h
    subst h
    exact Or.inl (lookupKey_mem hp)
  | none =>
    rw [lookupBody_of_priv_none hp] at h
    cases hc : lookupKey COMMON_LOOK_UP name with
    | some c' =>
      rw [check_common_of_some hc] at h
      injection h with h
      injection h with h
      subst h
      exact Or.inr (lookupKey_mem hc)
    | none =>
      rw [check_common_of_none hc] at h
      injection h with h
      exact absurd h (by simp)

/-! ### Claim theorems -/

/-- Claim C1, as stated, is false of the code: "undefinedTag" is in no
private table and not in COMMON_LOOK_UP, yet every one of the six resolvers
and the shared-table check return Python None normally (lxml then falls back
to its generic element class); no LookupError is raised. -/
theorem C1_counterexample :
    lookupKey ProcessDatasetLookup.lookupMap "undefinedTag" = none ∧
    lookupKey FlowDatasetLookup.lookupMap "undefinedTag" = none ∧
    lookupKey FlowPropertyDatasetLookup.lookupMap "undefinedTag" = none ∧
    lookupKey UnitGroupDatasetLookup.lookupMap "undefinedTag" = none ∧
    lookupKey ContactDatasetLookup.lookupMap "undefinedTag" = none ∧
    lookupKey SourceDatasetLookup.lookupMap "undefinedTag" = none ∧
    lookupKey COMMON_LOOK_UP "undefinedTag" = none ∧
    resolve Kind.process "undefinedTag" = Except.ok none ∧
    resolve Kind.flow "undefinedTag" = Except.ok none ∧
    resolve Kind.flowProperty "undefinedTag" = Except.ok none ∧
    resolve Kind.unitGroup "undefinedTag" = Except.ok none ∧
    resolve Kind.contact "undefinedTag" = Except.ok none ∧
    resolve Kind.source "undefinedTag" = Except.ok none ∧
    check_common_lookup "undefinedTag" = Except.ok none := by
  decide

/-- Claim C1 (amended): for every one of the six resolvers, a tag name found
neither in that kind's private table nor in COMMON_LOOK_UP makes lookup
return Python None — delegating the element to lxml's generic fallback
class — rather than raising a LookupError. -/
theorem C1_amended (k : Kind) (name : String)
    (hpriv : lookupKey (privateTable k) name = none)
    (hcommon : lookupKey COMMON_LOOK_UP name = none) :
    resolve k name = Except.ok none := by
  rw [resolve_eq_lookupBody, lookupBody_of_priv_none hpriv,
    check_common_of_none hcommon]

/-- Witness for C1_amended at the concrete tag "myTag". -/
theorem C1_amended_witness :
    lookupKey (privateTable Kind.process) "myTag" = none ∧
    lookupKey COMMON_LOOK_UP "myTag" = none ∧
    resolve Kind.process "myTag" = Except.ok none :=
  ⟨by decide, by decide, C1_amended Kind.process "myTag" (by decide) (by decide)⟩

/-- Claim C2: a tag present in a kind's private table always resolves to the
private class — the private map is consulted first, so COMMON_LOOK_UP never
preempts it; in particular the ProcessDataset resolver maps "compliance" to
process_dataset.Compliance, a class distinct from the shared
common.Compliance held by COMMON_LOOK_UP, extending ComplianceGroup with
exactly the five compliance-rating accessors (while common.Compliance adds
none). -/
theorem C2_private_wins :
    (∀ (k : Kind) (name : String) (c : WClass),
      lookupKey (privateTable k) name = some c →
      resolve k name = Except.ok (some c)) ∧
    resolve Kind.process "compliance" = Except.ok (some WClass.ProcessCompliance) ∧
    lookupKey COMMON_LOOK_UP "compliance" = some WClass.Compliance ∧
    WClass.ProcessCompliance ≠ WClass.Compliance ∧
    ProcessCompliance.bases = [WClass.ComplianceGroup] ∧
    ProcessCompliance.ownAccessors.map Accessor.pyName =
      ["nomenclatureCompliance", "methodologicalCompliance", "reviewCompliance",
        "documentationCompliance", "qualityCompliance"] ∧
    Compliance.bases = [WClass.ComplianceGroup] ∧
    Compliance.ownAccessors = [] := by
  refine ⟨?_, by decide, by decide, by decide, by decide, by decide, by decide,
    by decide⟩
  intro k name c h
  rw [resolve_eq_lookupBody, lookupBody_of_priv_some h]

/-- Witness for C2_private_wins: the universally quantified conjunct applied
at the ProcessDataset resolver and the tag "compliance". -/
theorem C2_private_wins_witness :
    resolve Kind.process "compliance" = Except.ok (some WClass.ProcessCompliance) :=
  C2_private_wins.1 Kind.process "compliance" WClass.ProcessCompliance (by decide)

/-- Claim C3: a tag carried by COMMON_LOOK_UP and by none of the six private
tables resolves identically — to its COMMON_LOOK_UP class — under all six
resolvers; and the tag "name", present in several private tables, resolves
to two different classes under the Process and the Flow resolvers. -/
theorem C3_shared_vs_private :
    (∀ p ∈ COMMON_LOOK_UP,
      (∀ k : Kind, lookupKey (privateTable k) p.1 = none) →
      ∀ k : Kind, resolve k p.1 = Except.ok (some p.2)) ∧
    resolve Kind.process "name" = Except.ok (some WClass.ProcessName) ∧
    resolve Kind.flow "name" = Except.ok (some WClass.FlowName) ∧
    WClass.ProcessName ≠ WClass.FlowName := by
  refine ⟨?_, by decide, by decide, by decide⟩
  rintro ⟨nm, c⟩ hmem hpriv k
  have hc : lookupKey COMMON_LOOK_UP nm = some c :=
    lookupKey_of_mem commonKeysNodup hmem
  rw [resolve_eq_lookupBody, lookupBody_of_priv_none (hpriv k),
    check_common_of_some hc]

/-- Witness for C3_shared_vs_private: the COMMON_LOOK_UP entry "category",
absent from all six private tables, under the Contact resolver. -/
theorem C3_shared_vs_private_witness :
    resolve Kind.contact "category" = Except.ok (some WClass.Category) :=
  C3_shared_vs_private.1 ("category", WClass.Category) (by decide) (by decide)
    Kind.contact

/-- The failing configuration for claim C4: a section named after the
element type Classification setting name=EPD. -/
def C4config : ConfigFile :=
  { parameters := none,
    sections := [("Classification", [("name", "EPD")])] }

/-- Claim C4 concerns a code bug: config_defaults stores the parsed sections
in the new lowercase attribute static_defaults (which nothing reads) and
leaves STATIC_DEFAULTS — the table save_ilcd_file consults under
fill_defaults=True — unchanged, so the configured (Classification, name)
entry EPD never reaches a default-filling save, which still passes the
import-time table with ILCD. -/
theorem C4_config_not_applied (pkgDir : String) (root : Unit) :
    staticLookup (Defaults.config_defaults (Defaults.initial pkgDir)
      C4config).STATIC_DEFAULTS "Classification" "name" = some "ILCD" ∧
    (Defaults.config_defaults (Defaults.initial pkgDir)
      C4config).static_defaults = some [("Classification", [("name", "EPD")])] ∧
    (save_ilcd_file root "out.xml" true (Defaults.config_defaults
      (Defaults.initial pkgDir) C4config)).static_defaults =
      some (Defaults.initial pkgDir).STATIC_DEFAULTS := by
  refine ⟨rfl, rfl, rfl⟩

/-- Claim C5: no partial "Group" class of common.py appears as a value of
any private table or of COMMON_LOOK_UP, and hence no resolver ever returns
one. -/
theorem C5_no_group_resolvable :
    (∀ k : Kind, ∀ p ∈ privateTable k, p.2 ∉ groupClasses) ∧
    (∀ p ∈ COMMON_LOOK_UP, p.2 ∉ groupClasses) ∧
    (∀ (k : Kind) (name : String) (c : WClass),
      resolve k name = Except.ok (some c) → c ∉ groupClasses) := by
  refine ⟨by decide, by decide, ?_⟩
  intro k name c h
  rcases resolve_ok_mem h with hmem | hmem
  · exact (by decide :
      ∀ k : Kind, ∀ p ∈ privateTable k, p.2 ∉ groupClasses) k (name, c) hmem
  · exact (by decide : ∀ p ∈ COMMON_LOOK_UP, p.2 ∉ groupClasses) (name, c) hmem

/-- Witness for C5_no_group_resolvable at the resolved class of
"compliance" under the Process resolver. -/
theorem C5_no_group_resolvable_witness :
    WClass.ProcessCompliance ∉ groupClasses :=
  C5_no_group_resolvable.2.2 Kind.process "compliance" WClass.ProcessCompliance
    (by decide)

/-- Claim C6: each resolver's lookup is a pure function of the tag name
alone — the node-type, document and namespace arguments (of any types) do
not influence the result, no state is read or written, and any two calls
with the same tag name agree. -/
theorem C6_lookup_pure {α β γ α2 β2 γ2 : Type _} (k : Kind) (nodeType : α)
    (document : β) (ns : γ) (nodeType2 : α2) (document2 : β2) (ns2 : γ2)
    (name : String) :
    dispatchLookup k nodeType document ns name = resolve k name ∧
    dispatchLookup k nodeType document ns name =
      dispatchLookup k nodeType2 document2 ns2 name := by
  cases k <;> exact ⟨rfl, rfl⟩

/-- Claim C7: save_ilcd_file with fill_defaults=False passes neither static
nor dynamic defaults to the serializer; with fill_defaults=True it passes
Defaults.STATIC_DEFAULTS and Defaults.DYNAMIC_DEFAULTS. -/
theorem C7_save_defaults {ρ : Type _} (root : ρ) (path : String)
    (st : DefaultsState) :
    save_ilcd_file root path false st =
      { root := root, path := path,
        static_defaults := none, dynamic_defaults := none } ∧
    save_ilcd_file root path true st =
      { root := root, path := path,
        static_defaults := some st.STATIC_DEFAULTS,
        dynamic_defaults := some st.DYNAMIC_DEFAULTS } :=
  ⟨rfl, rfl⟩

theorem setattr_proc_other {st : DefaultsState} {kv : String × String}
    (h : kv.1 ≠ "SCHEMA_PROCESS_DATASET") :
    (Defaults.setattr st kv).SCHEMA_PROCESS_DATASET =
      st.SCHEMA_PROCESS_DATASET := by
  unfold Defaults.setattr
  split_ifs <;> rfl

theorem setattr_proc_self {st : DefaultsState} {v : String} :
    (Defaults.setattr st ("SCHEMA_PROCESS_DATASET", v)).SCHEMA_PROCESS_DATASET
      = v := by
  unfold Defaults.setattr
  split_ifs <;> simp_all

theorem foldl_setattr_proc_of_none :
    ∀ (ps : List (String × String)) (st : DefaultsState),
    lookupKey ps "SCHEMA_PROCESS_DATASET" = none →
    (ps.foldl Defaults.setattr st).SCHEMA_PROCESS_DATASET =
      st.SCHEMA_PROCESS_DATASET
  | [], st, _ => rfl
  | (k, v) :: rest, st, h => by
    rw [lookupKey] at h
    by_cases hk : k = "SCHEMA_PROCESS_DATASET"
    · rw [if_pos hk] at h
      exact absurd h (by simp)
    · rw [if_neg hk] at h
      rw [List.foldl_cons, foldl_setattr_proc_of_none rest _ h]
      exact setattr_proc_other hk

theorem foldl_setattr_proc {p : String} :
    ∀ (ps : List (String × String)) (st : DefaultsState),
    (ps.map Prod.fst).Nodup →
    lookupKey ps "SCHEMA_PROCESS_DATASET" = some p →
    (ps.foldl Defaults.setattr st).SCHEMA_PROCESS_DATASET = p
  | [], st, _, h => by simp [lookupKey] at h
  | (k, v) :: rest, st, hnd, h => by
    rw [lookupKey] at h
    rw [List.map_cons, List.nodup_cons] at hnd
    by_cases hk : k = "SCHEMA_PROCESS_DATASET"
    · rw [if_pos hk] at h
      injection h with hv
      subst hk
      subst hv
      have hrest : lookupKey rest "SCHEMA_PROCESS_DATASET" = none :=
        lookupKey_eq_none hnd.1
      rw [List.foldl_cons, foldl_setattr_proc_of_none rest _ hrest]
      exact setattr_proc_self
    · rw [if_neg hk] at h
      rw [List.foldl_cons]
      exact foldl_setattr_proc rest _ hnd.2 h

/-- Claim C8: a [parameters] section binding SCHEMA_PROCESS_DATASET replaces
the class attribute, and the subsequent validate-file and parse-file calls
for the process dataset kind read the overridden path at call time. -/
theorem C8_schema_override {φ : Type _} (pkgDir p : String)
    (ps : List (String × String)) (sections : List (String × AttrMap))
    (file : φ) (st : DefaultsState)
    (hst : st = Defaults.config_defaults (Defaults.initial pkgDir)
      { parameters := some ps, sections := sections })
    (hnd : (ps.map Prod.fst).Nodup)
    (hp : lookupKey ps "SCHEMA_PROCESS_DATASET" = some p) :
    st.SCHEMA_PROCESS_DATASET = p ∧
    validate_file_process_dataset file st =
      { file := file, schema_path := p } ∧
    parse_file_process_dataset file st =
      { file := file, schema_path := p, lookup := Kind.process } := by
  have hfield : st.SCHEMA_PROCESS_DATASET = p := by
    rw [hst]
    show (ps.foldl Defaults.setattr
      (Defaults.initial pkgDir)).SCHEMA_PROCESS_DATASET = p
    exact foldl_setattr_proc ps _ hnd hp
  exact ⟨hfield,
    by rw [validate_file_process_dataset, hfield],
    by rw [parse_file_process_dataset, hfield]⟩

/-- Witness for C8_schema_override at a one-binding parameters section. -/
theorem C8_schema_override_witness :
    (Defaults.config_defaults (Defaults.initial "pkg")
        { parameters := some [("SCHEMA_PROCESS_DATASET", "custom.xsd")],
          sections := [] }).SCHEMA_PROCESS_DATASET = "custom.xsd" ∧
    validate_file_process_dataset "f.xml"
        (Defaults.config_defaults (Defaults.initial "pkg")
          { parameters := some [("SCHEMA_PROCESS_DATASET", "custom.xsd")],
            sections := [] }) =
      { file := "f.xml", schema_path := "custom.xsd" } ∧
    parse_file_process_dataset "f.xml"
        (Defaults.config_defaults (Defaults.initial "pkg")
          { parameters := some [("SCHEMA_PROCESS_DATASET", "custom.xsd")],
            sections := [] }) =
      { file := "f.xml", schema_path := "custom.xsd", lookup := Kind.process } :=
  C8_schema_override "pkg" "custom.xsd"
    [("SCHEMA_PROCESS_DATASET", "custom.xsd")] [] "f.xml" _ rfl (by decide)
    (by decide)

/-- Claim C9: every factory-made typed accessor of common.py carries the
Process-dataset schema identity (the helpers pass
Defaults.SCHEMA_PROCESS_DATASET), whatever dataset kind the element later
occurs in. -/
theorem C9_common_uses_process_schema :
    ∀ p ∈ commonAccessors, p.2.schema = Kind.process := by decide

/-- Witness for C9_common_uses_process_schema at
DataEntryByGroup1.timeStamp. -/
theorem C9_common_uses_process_schema_witness :
    (create_element_text_process_dataset "timeStamp" "common:timeStamp").schema
      = Kind.process :=
  C9_common_uses_process_schema
    ("DataEntryByGroup1",
      create_element_text_process_dataset "timeStamp" "common:timeStamp")
    (by decide)

/-- Claim C10: before any configuration is loaded the static defaults table
holds exactly the three entries (Classification, name) = ILCD,
(FlowCategorization, name) = ILCD and (ProcessDataset, metaDataOnly) =
false, the dynamic table is empty, and a fill_defaults=True save passes
exactly these tables on. -/
theorem C10_initial_defaults (pkgDir : String) :
    (∀ t a v : String,
      staticLookup (Defaults.initial pkgDir).STATIC_DEFAULTS t a = some v ↔
        ((t = "Classification" ∧ a = "name" ∧ v = "ILCD") ∨
          (t = "FlowCategorization" ∧ a = "name" ∧ v = "ILCD") ∨
          (t = "ProcessDataset" ∧ a = "metaDataOnly" ∧ v = "false"))) ∧
    (Defaults.initial pkgDir).DYNAMIC_DEFAULTS = [] ∧
    (save_ilcd_file () "out.xml" true
        (Defaults.initial pkgDir)).static_defaults =
      some (Defaults.initial pkgDir).STATIC_DEFAULTS ∧
    (save_ilcd_file () "out.xml" true
        (Defaults.initial pkgDir)).dynamic_defaults = some [] := by
  refine ⟨?_, rfl, rfl, rfl⟩
  intro t a v
  show staticLookup [
      ("Classification", [("name", "ILCD")]),
      ("FlowCategorization", [("name", "ILCD")]),
      ("ProcessDataset", [("metaDataOnly", "false")])] t a = some v ↔ _
  simp only [staticLookup, lookupKey]
  split_ifs with h1 h2 h3
  · subst h1
    simp only [lookupKey]
    have e1 : ¬(("Classification" : String) = "FlowCategorization") := by decide
    have e2 : ¬(("Classification" : String) = "ProcessDataset") := by decide
    by_cases ha : "name" = a
    · subst ha
      simp [e1, e2, eq_comm]
    · have ha2 : ¬(a = "name") := fun h => ha h.symm
      simp [e1, e2, ha, ha2]
  · subst h2
    simp only [lookupKey]
    have e1 : ¬(("FlowCategorization" : String) = "Classification") := by decide
    have e2 : ¬(("FlowCategorization" : String) = "ProcessDataset") := by decide
    by_cases ha : "name" = a
    · subst ha
      simp [e1, e2, eq_comm]
    · have ha2 : ¬(a = "name") := fun h => ha h.symm
      simp [e1, e2, ha, ha2]
  · subst h3
    simp only [lookupKey]
    have e1 : ¬(("ProcessDataset" : String) = "Classification") := by decide
    have e2 : ¬(("ProcessDataset" : String) = "FlowCategorization") := by decide
    by_cases ha : "metaDataOnly" = a
    · subst ha
      simp [e1, e2, eq_comm]
    · have ha2 : ¬(a = "metaDataOnly") := fun h => ha h.symm
      simp [e1, e2, ha, ha2]
  · constructor
    · intro h
      exact absurd h (by simp)
    · rintro (⟨ht, -, -⟩ | ⟨ht, -, -⟩ | ⟨ht, -, -⟩)
      · exact (h1 ht.symm).elim
      · exact (h2 ht.symm).elim
      · exact (h3 ht.symm).elim

end PyILCD
